import Mathlib

/-
Shallow embedding of `cleanlab/internal/validation.py`.

The module under verification is a collection of defensive input checks over
dynamically typed Python values (labels containers, dataset handles, numpy
probability matrices).  The embedding below models:

  * Python exceptions as an explicit error type (`PyError`), with the two
    exception classes the module raises (`TypeError`, `ValueError`);
  * numpy integer arrays as a shape together with row-major flattened data;
  * numpy float matrices (`pred_probs`) with rational entries;
  * the accepted labels containers (`list`, `np.ndarray`, `pd.Series`,
    `pd.DataFrame`) as an inductive type;
  * dataset handles `X` as a record of the capabilities the source code
    probes (`len(X)`, `X.shape[0]`, pandas `.iloc` indexing, torch / tf
    dataset membership, generic `X[index_list]` indexing).  A capability
    that would raise in Python is modelled as `none` / `false`; the
    try/except blocks of the source become matches on these capabilities.
  * the availability of the optional `torch` / `tensorflow` imports as an
    environment record, since the source probes them lazily per call.

Every function returning `None` in Python is modelled as
`Except PyError Unit`; `assert_valid_inputs` returns the list of warnings
emitted on a successful run (the only warning the source can emit is the
"X may be ignored" advisory).
-/

namespace CleanlabValidation

/-- Python exception values raised by the validation module. -/
inductive PyError where
  | typeError (msg : String)
  | valueError (msg : String)
deriving DecidableEq

/-- Is the outcome a `ValueError`?  Used to state taxonomy claims. -/
def isValueErrorKind : Except PyError Unit → Bool
  | .error (.valueError _) => true
  | _ => false

/-- numpy array of (unbounded) Python ints: a shape and row-major data. -/
structure NpArrayI where
  shape : List Nat
  data : List Int
deriving DecidableEq

/-- numpy array of floats, modelled with rational entries (`pred_probs`). -/
structure NpArrayQ where
  shape : List Nat
  data : List Rat
deriving DecidableEq

/-- A Python list used as a labels container: either a flat list of ints or
a list of lists of ints (one level of nesting is all the claims need). -/
inductive PyListVal where
  | flat (l : List Int)
  | nested (rows : List (List Int))
deriving DecidableEq

/-- The accepted labels containers of `labels_to_array` / the `isinstance`
check in `assert_valid_inputs`: list, numpy array, pandas Series (always
one-dimensional), pandas DataFrame (a column count and the rows). -/
inductive LabelLike where
  | pylist (v : PyListVal)
  | ndarray (a : NpArrayI)
  | series (s : List Int)
  | dataframe (ncols : Nat) (rows : List (List Int))
deriving DecidableEq

/-- The `y` argument of `assert_valid_inputs`: either one of the accepted
containers or any other Python object (rejected by the `isinstance` check). -/
inductive YInput where
  | accepted (y : LabelLike)
  | other
deriving DecidableEq

/-- The `pred_probs` argument when not `None`: a numpy array or any other
object (rejected by the `isinstance` check). -/
inductive PredProbsLike where
  | ndarray (p : NpArrayQ)
  | other
deriving DecidableEq

/-- Capabilities of a (non-`None`) Python object passed as `X`, as probed by
the source: each field records whether the corresponding Python operation
succeeds, and with which result.  `pyLen = none` means `len(X)` raises;
`shape0 = none` means `X.shape[0]` raises; `ilocOk` is whether
`X.iloc[idx]` succeeds; `torchSubsetOk` whether `torch...Subset(X, idx)`
succeeds; `bracketListOk` whether `X[idx]` with a list `idx` succeeds. -/
structure XObj where
  pyLen : Option Nat
  shape0 : Option Nat
  isPandas : Bool
  ilocOk : Bool
  isTorchDataset : Bool
  torchSubsetOk : Bool
  isTfDataset : Bool
  bracketListOk : Bool
deriving DecidableEq

/-- Whether the optional `torch` / `tensorflow` imports succeed; the source
probes them inside `try` blocks on every call. -/
structure Env where
  torchAvailable : Bool
  tfAvailable : Bool
deriving DecidableEq

/-- Capabilities of a plain Python list of length `n` used as `X`: it has a
`len`, no `.shape`, is no pandas / torch / tensorflow object, and indexing
by a list of positions (`X[[0, n-1]]`) raises
`TypeError: list indices must be integers or slices, not list`. -/
def listX (n : Nat) : XObj :=
  ⟨some n, none, false, false, false, false, false, false⟩

/-- Capabilities of the Python object `None` when probed as `X`. -/
def noneX : XObj :=
  ⟨none, none, false, false, false, false, false, false⟩

/-- Capabilities of an optional `X` (`none` is Python `None`). -/
def xCaps : Option XObj → XObj
  | some o => o
  | none => noneX

/-- Result of `len(y)` for each accepted labels container (`none` = raises, which
happens only for a zero-dimensional numpy array). -/
def pyLenOfLabelLike : LabelLike → Option Nat
  | .pylist (.flat l) => some l.length
  | .pylist (.nested rows) => some rows.length
  | .ndarray a => a.shape.head?
  | .series s => some s.length
  | .dataframe _ rows => some rows.length

/-- Model of `np.asarray` on a Python list: a flat list gives a 1D array; a list of
lists gives a 2D array when the rows are rectangular ([] gives the empty 1D
array); a ragged list of lists fails coercion to a numeric array. -/
def npAsarrayList : PyListVal → Option NpArrayI
  | .flat l => some ⟨[l.length], l⟩
  | .nested rows =>
    if rows = [] then some ⟨[0], []⟩
    else if rows.all (fun r => r.length = (rows.headD []).length) then
      some ⟨[rows.length, (rows.headD []).length], rows.flatten⟩
    else none

/-- Model of `np.unique` on the flattened data: the sorted list of distinct values. -/
def npUnique (l : List Int) : List Int :=
  l.dedup.insertionSort (· ≤ ·)

/-- The numpy rendering of a 1D int array, e.g. `[1 2 3]`. -/
def npArrayStr (l : List Int) : String :=
  "[" ++ String.intercalate " " (l.map toString) ++ "]"

def msgLabelsType : String :=
  "labels should be a numpy array or pandas Series."

def msgLabels1D : String :=
  "labels must be 1D numpy array."

def msgAtLeast2 : String :=
  "Labels must contain at least 2 classes."

/-- Message of the `TypeError` raised for a non-zero-indexed or incomplete
class set, naming `np.unique(labels)`. -/
def mkZeroIdxMsg (u : List Int) : String :=
  "cleanlab requires zero-indexed integer labels (0,1,2,..,K-1), but in " ++
    "your case: np.unique(labels) = " ++ npArrayStr u ++ ". " ++
    "Every class in (0,1,2,..,K-1) must be present in labels as well."

def msgXNone : String :=
  "Data features X cannot be None. Currently X is None."

def msgLenOrShape : String :=
  "Data features X must support either: len(X) or X.shape[0]"

def mkMismatchMsg (n m : Nat) : String :=
  "X and labels must be same length, but X is length " ++ toString n ++
    " and labels is length " ++ toString m ++ "."

def msgIndexing : String :=
  "Data features X must support list-based indexing; i.e. one of these must work: \n" ++
    "1)  X[index_list] where say index_list = [0,1,3,10], or \n" ++
    "2)  X.iloc[index_list] if X is pandas DataFrame."

def msgPredType : String :=
  "pred_probs must be a numpy array."

def msgPredLen : String :=
  "pred_probs and labels must have same length."

def msgPredShape : String :=
  "pred_probs array must have shape: num_examples x num_classes."

def msgPredRange : String :=
  "Values in pred_probs must be between 0 and 1."

def msgWarn : String :=
  "When X and pred_probs are both provided, former may be ignored."

def mkClassCountMsg (ncols k : Nat) : String :=
  "All classes in (0,1,2,...,K-1) must be present in labels " ++
    "with K = pred_probs.shape[1] = " ++ toString ncols ++ " in your case, " ++
    "but your labels only contain " ++ toString k ++ " unique values."

def msgConvert : String :=
  "List of labels must be convertable to 1D numpy array via: np.ndarray(labels)."

def msgDF1D : String :=
  "labels must be one dimensional."

/-- Message of the error `len()` raises on an unsized (0-dimensional) numpy object. -/
def msgLenUnsized : String :=
  "len() of unsized object"

/-- Message of the error `np.min` / `np.max` raise on an empty `pred_probs` array. -/
def msgZeroSize : String :=
  "zero-size array to reduction operation minimum which has no identity"

/-- Model of `labels_to_array(y)`: a pandas Series goes through `.to_numpy()` (1D);
a DataFrame goes through `.values` (shape `(n, ncols)`), is rejected unless
it has exactly one column, and is flattened; everything else goes through
`np.asarray`, whose failure is turned into a `ValueError`. -/
def labels_to_array : LabelLike → Except PyError NpArrayI
  | .series s => .ok ⟨[s.length], s⟩
  | .dataframe ncols rows =>
    if ncols ≠ 1 then .error (.valueError msgDF1D)
    else .ok ⟨[rows.flatten.length], rows.flatten⟩
  | .ndarray a => .ok a
  | .pylist v =>
    match npAsarrayList v with
    | some a => .ok a
    | none => .error (.valueError msgConvert)

/-- Model of `assert_valid_class_labels(y, allow_missing_classes)`: requires a 1D
array; unless missing classes are allowed, requires at least two distinct
values and that `np.unique(y)` equals `np.arange(len(np.unique(y)))`. -/
def assert_valid_class_labels (y : NpArrayI) (allow_missing_classes : Bool) :
    Except PyError Unit :=
  if y.shape.length ≠ 1 then .error (.valueError msgLabels1D)
  else if allow_missing_classes then .ok ()
  else
    let u := npUnique y.data
    if u.length < 2 then .error (.valueError msgAtLeast2)
    else if u ≠ (List.range u.length).map Int.ofNat then
      .error (.typeError (mkZeroIdxMsg u))
    else .ok ()

/-- Model of `assert_nonempty_input(X)`: raises iff `X is None`. -/
def assert_nonempty_input (X : Option XObj) : Except PyError Unit :=
  match X with
  | some _ => .ok ()
  | none => .error (.valueError msgXNone)

/-- Model of `assert_indexing_works(X, idx, length_X)`: tries, in order, pandas
`.iloc` positional indexing (only for pandas containers), torch
`Subset` indexing (only when `torch` imports and `X` is a torch dataset),
tensorflow dataset recognition (accepted without indexing), then generic
`X[idx]`; every failed attempt is swallowed, and if all fail a `TypeError`
naming the two supported protocols is raised.  The capability flags of
`XObj` abstract over the concrete index list, whose construction from
`length_X` is mirrored here. -/
def assert_indexing_works (env : Env) (X : Option XObj)
    (idx : Option (List Int)) (length_X : Option Nat) : Except PyError Unit :=
  let lX : Nat := length_X.getD 2
  let _idxList : List Int := idx.getD [0, (lX : Int) - 1]
  let c := xCaps X
  let is_indexed := c.isPandas && c.ilocOk
  let is_indexed := is_indexed || (env.torchAvailable && (c.isTorchDataset && c.torchSubsetOk))
  let is_indexed := is_indexed || (env.tfAvailable && c.isTfDataset)
  if is_indexed then .ok ()
  else if c.bracketListOk then .ok ()
  else .error (.typeError msgIndexing)

/-- Model of `assert_valid_inputs(X, y, pred_probs, multi_label, allow_missing_classes)`,
returning the warnings emitted on success.  Mirrors the source line by line:
the `isinstance` check on `y`; conversion and class-label validation when not
multi-label; the `allow_empty_X` computation (empty `X` allowed when
`pred_probs` is supplied or `X` is a tensorflow dataset); the X block
(non-`None`, `len` falling back to `.shape[0]`, length comparison against
`len(y)`, indexing check); and the `pred_probs` block (numpy type, length,
2D shape, `[0,1]` range, the advisory warning when `X` is also supplied, and
the distinct-label count against `pred_probs.shape[1]`). -/
def assert_valid_inputs (env : Env) (X : Option XObj) (y : YInput)
    (pred_probs : Option PredProbsLike) (multi_label : Bool)
    (allow_missing_classes : Bool) : Except PyError (List String) :=
  match y with
  | .other => .error (.typeError msgLabelsType)
  | .accepted y0 =>
    let convRes : Except PyError (Option NpArrayI) :=
      if multi_label then .ok none
      else
        match labels_to_array y0 with
        | .error e => .error e
        | .ok arr =>
          match assert_valid_class_labels arr allow_missing_classes with
          | .error e => .error e
          | .ok _ => .ok (some arr)
    match convRes with
    | .error e => .error e
    | .ok conv =>
      let yLen? : Option Nat :=
        match conv with
        | some arr => arr.shape.head?
        | none => pyLenOfLabelLike y0
      let allow_empty_X : Bool :=
        pred_probs.isSome || (env.tfAvailable && (xCaps X).isTfDataset)
      let xBlock : Except PyError Unit :=
        if allow_empty_X then .ok ()
        else
          match assert_nonempty_input X with
          | .error e => .error e
          | .ok _ =>
            let numExamples? : Option Nat :=
              match (xCaps X).pyLen with
              | some n => some n
              | none => (xCaps X).shape0
            match numExamples? with
            | none => .error (.typeError msgLenOrShape)
            | some n =>
              match yLen? with
              | none => .error (.typeError msgLenUnsized)
              | some m =>
                if n ≠ m then .error (.valueError (mkMismatchMsg n m))
                else assert_indexing_works env X none (some n)
      match xBlock with
      | .error e => .error e
      | .ok _ =>
        match pred_probs with
        | none => .ok []
        | some pp =>
          match pp with
          | .other => .error (.typeError msgPredType)
          | .ndarray p =>
            match p.shape.head?, yLen? with
            | none, _ => .error (.typeError msgLenUnsized)
            | some _, none => .error (.typeError msgLenUnsized)
            | some pn, some m =>
              if pn ≠ m then .error (.valueError msgPredLen)
              else if p.shape.length ≠ 2 then .error (.valueError msgPredShape)
              else if p.data = [] then .error (.valueError msgZeroSize)
              else if p.data.any (fun q => decide (q < 0)) ||
                  p.data.any (fun q => decide (1 < q)) then
                .error (.valueError msgPredRange)
              else
                let warns := if X.isSome then [msgWarn] else []
                if !allow_missing_classes && !multi_label then
                  match conv with
                  | some arr =>
                    let k := (npUnique arr.data).length
                    if k ≠ p.shape.getD 1 0 then
                      .error (.valueError (mkClassCountMsg (p.shape.getD 1 0) k))
                    else .ok warns
                  | none => .ok warns
                else .ok warns


/-- Boolean test that the pattern is an initial segment of the list. -/
def leadsB : List Char → List Char → Bool
  | [], _ => true
  | _ :: _, [] => false
  | a :: p, b :: l => a == b && leadsB p l

/-- Boolean test that the pattern occurs contiguously inside the list;
used to state that an error message names an indexing protocol. -/
def occursInB : List Char → List Char → Bool
  | p, [] => leadsB p []
  | p, b :: t => leadsB p (b :: t) || occursInB p t

/-- Result dimensionality of `labels_to_array` (`none` when it raises). -/
def resultNdim (y : LabelLike) : Option Nat :=
  (labels_to_array y).toOption.map (fun a => a.shape.length)

lemma npUnique_sorted (l : List Int) : (npUnique l).Sorted (· ≤ ·) :=
  List.sorted_insertionSort _ _

lemma npUnique_nodup (l : List Int) : (npUnique l).Nodup :=
  (List.perm_insertionSort _ _).nodup_iff.mpr l.nodup_dedup

lemma npUnique_toFinset (l : List Int) : (npUnique l).toFinset = l.toFinset := by
  unfold npUnique
  rw [List.toFinset_eq_of_perm _ _ (List.perm_insertionSort _ _)]
  ext a
  simp [List.mem_toFinset, List.mem_dedup]

lemma rangeMapInt_sorted (K : Nat) : ((List.range K).map Int.ofNat).Sorted (· ≤ ·) :=
  List.Pairwise.map _ (fun _ _ h => Int.ofNat_le.mpr h) (List.sorted_le_range K)

lemma rangeMapInt_nodup (K : Nat) : ((List.range K).map Int.ofNat).Nodup :=
  (List.nodup_range K).map (fun _ _ h => Int.ofNat.inj h)

lemma rangeMapInt_toFinset (K : Nat) :
    ((List.range K).map Int.ofNat).toFinset = (Finset.range K).image Int.ofNat := by
  ext a
  simp

/-- When the distinct values of `l` are exactly `{0, ..., K-1}`, the model of
`np.unique` returns exactly `0, 1, ..., K-1` in order. -/
lemma npUnique_of_toFinset_range (l : List Int) (K : Nat)
    (h : l.toFinset = (Finset.range K).image Int.ofNat) :
    npUnique l = (List.range K).map Int.ofNat := by
  refine List.eq_of_perm_of_sorted ?_ (npUnique_sorted l) (rangeMapInt_sorted K)
  refine List.perm_of_nodup_nodup_toFinset_eq (npUnique_nodup l) (rangeMapInt_nodup K) ?_
  rw [npUnique_toFinset, h, rangeMapInt_toFinset]


/-- Claim C2, counterexample: on the nested list `[[1,2],[3,4]]`,
`labels_to_array` returns normally but the result is a 2D array of shape
`(2, 2)`, not a flat one-dimensional array. -/
theorem claim_C2_counterexample :
    labels_to_array (.pylist (.nested [[1, 2], [3, 4]])) = .ok ⟨[2, 2], [1, 2, 3, 4]⟩ ∧
    resultNdim (.pylist (.nested [[1, 2], [3, 4]])) = some 2 :=
  ⟨rfl, rfl⟩

/-- Claim C2, amended: a pandas Series, a (necessarily single-column)
DataFrame that converts successfully, and a flat list all yield a flat 1D
array, but a plain list or numpy array keeps its native dimensionality
under `np.asarray`: a nonempty nested list that converts yields a 2D array
and an `ndarray` input is returned unchanged with its own shape. -/
theorem claim_C2_amended :
    (∀ s : List Int, labels_to_array (.series s) = .ok ⟨[s.length], s⟩) ∧
    (∀ (nc : Nat) (rows : List (List Int)),
      resultNdim (.dataframe nc rows) = some 1 ∨
        labels_to_array (.dataframe nc rows) = .error (.valueError msgDF1D)) ∧
    (∀ l : List Int, labels_to_array (.pylist (.flat l)) = .ok ⟨[l.length], l⟩) ∧
    (∀ rows : List (List Int),
      rows = [] ∨ resultNdim (.pylist (.nested rows)) = some 2 ∨
        labels_to_array (.pylist (.nested rows)) = .error (.valueError msgConvert)) ∧
    (∀ a : NpArrayI, labels_to_array (.ndarray a) = .ok a) := by
  refine ⟨fun s => rfl, fun nc rows => ?_, fun l => rfl, fun rows => ?_, fun a => rfl⟩
  · by_cases h : nc = 1
    · subst h
      exact Or.inl rfl
    · right
      simp [labels_to_array, h]
  · by_cases h0 : rows = []
    · exact Or.inl h0
    · refine Or.inr ?_
      by_cases hr : (rows.all fun r => r.length = (rows.headD []).length) = true
      · refine Or.inl ?_
        simp only [resultNdim, labels_to_array, npAsarrayList, if_neg h0, if_pos hr]
        rfl
      · refine Or.inr ?_
        simp only [labels_to_array, npAsarrayList, if_neg h0, if_neg hr]

/-- Claim C2, witness for the amended statement: concrete instances of the
Series and flat-list conjuncts. -/
theorem claim_C2_amended_witness :
    labels_to_array (.series [7]) = .ok ⟨[1], [7]⟩ ∧
    labels_to_array (.pylist (.flat [0, 1])) = .ok ⟨[2], [0, 1]⟩ :=
  ⟨claim_C2_amended.1 [7], claim_C2_amended.2.2.1 [0, 1]⟩

/-- Claim C3: a 1D label array whose distinct values are exactly
`{0, ..., K-1}` for some `K ≥ 2` passes `assert_valid_class_labels` with
`allow_missing_classes = False`. -/
theorem claim_C3 (y : NpArrayI) (K : Nat) (h1 : y.shape.length = 1)
    (hK : 2 ≤ K) (h : y.data.toFinset = (Finset.range K).image Int.ofNat) :
    assert_valid_class_labels y false = .ok () := by
  have hu := npUnique_of_toFinset_range y.data K h
  have hlen : (npUnique y.data).length = K := by
    rw [hu, List.length_map, List.length_range]
  unfold assert_valid_class_labels
  rw [if_neg (by omega)]
  rw [if_neg (by simp)]
  rw [if_neg (by omega)]
  rw [if_neg (by rw [hlen, hu]; simp)]

/-- Claim C3, witness: the labels `[0, 0, 1, 2]` (3 classes, with a repeat)
are accepted. -/
theorem claim_C3_witness : assert_valid_class_labels ⟨[4], [0, 0, 1, 2]⟩ false = .ok () :=
  claim_C3 ⟨[4], [0, 0, 1, 2]⟩ 3 (by decide) (by decide) (by decide)

/-- Claim C4: with `allow_missing_classes = False`, a 1D label array with
fewer than 2 distinct values raises the at-least-2-classes `ValueError`,
and one whose distinct values are not exactly `0, ..., K-1` raises the
zero-indexed-labels `TypeError` naming the observed distinct values; with
`allow_missing_classes = True` every 1D array is accepted. -/
theorem claim_C4 :
    (∀ y : NpArrayI, y.shape.length = 1 → (npUnique y.data).length < 2 →
      assert_valid_class_labels y false = .error (.valueError msgAtLeast2)) ∧
    (assert_valid_class_labels ⟨[3], [1, 2, 3]⟩ false =
      .error (.typeError (mkZeroIdxMsg [1, 2, 3]))) ∧
    (∀ y : NpArrayI, y.shape.length = 1 → 2 ≤ (npUnique y.data).length →
      npUnique y.data ≠ (List.range (npUnique y.data).length).map Int.ofNat →
      assert_valid_class_labels y false = .error (.typeError (mkZeroIdxMsg (npUnique y.data)))) ∧
    (∀ y : NpArrayI, y.shape.length = 1 →
      assert_valid_class_labels y true = .ok ()) := by
  refine ⟨fun y h1 h2 => ?_, rfl, fun y h1 h2 h3 => ?_, fun y h1 => ?_⟩
  · unfold assert_valid_class_labels
    rw [if_neg (by omega), if_neg (by simp), if_pos h2]
  · unfold assert_valid_class_labels
    rw [if_neg (by omega), if_neg (by simp), if_neg (by omega), if_pos h3]
  · unfold assert_valid_class_labels
    rw [if_neg (by omega), if_pos rfl]

/-- Claim C4, witness: the labels `[0]` raise the at-least-2-classes
`ValueError`; `[0, 2]` (missing class 1) raise the zero-indexed-labels
`TypeError`; and with `allow_missing_classes = True` the labels `[5]` are
accepted. -/
theorem claim_C4_witness :
    assert_valid_class_labels ⟨[1], [0]⟩ false = .error (.valueError msgAtLeast2) ∧
    assert_valid_class_labels ⟨[2], [0, 2]⟩ false =
      .error (.typeError (mkZeroIdxMsg (npUnique [0, 2]))) ∧
    assert_valid_class_labels ⟨[1], [5]⟩ true = .ok () :=
  ⟨claim_C4.1 ⟨[1], [0]⟩ (by decide) (by decide),
   claim_C4.2.2.1 ⟨[2], [0, 2]⟩ (by decide) (by decide) (by decide),
   claim_C4.2.2.2 ⟨[1], [5]⟩ (by decide)⟩

/-- Claim C5, counterexample: for the labels `[1, 2, 3]` (incomplete,
non-zero-indexed class set) the failure is a `TypeError`, not a
ValueError-kind error as the claim states. -/
theorem claim_C5_counterexample :
    assert_valid_class_labels ⟨[3], [1, 2, 3]⟩ false =
      .error (.typeError (mkZeroIdxMsg [1, 2, 3])) ∧
    isValueErrorKind (assert_valid_class_labels ⟨[3], [1, 2, 3]⟩ false) = false :=
  ⟨rfl, rfl⟩

/-- Claim C5, amended: a 1D label sequence whose distinct class set is not
exactly `{0, ..., K-1}` fails validation, but with a TypeError-kind error
when at least two distinct values are present; when fewer than two are
present the at-least-2-classes check fires first with a ValueError-kind
error. -/
theorem claim_C5_amended :
    (∀ y : NpArrayI, y.shape.length = 1 → 2 ≤ (npUnique y.data).length →
      npUnique y.data ≠ (List.range (npUnique y.data).length).map Int.ofNat →
      assert_valid_class_labels y false =
        .error (.typeError (mkZeroIdxMsg (npUnique y.data))) ∧
      isValueErrorKind (assert_valid_class_labels y false) = false) ∧
    (∀ y : NpArrayI, y.shape.length = 1 → (npUnique y.data).length < 2 →
      assert_valid_class_labels y false = .error (.valueError msgAtLeast2)) := by
  constructor
  · intro y h1 h2 h3
    have he : assert_valid_class_labels y false =
        .error (.typeError (mkZeroIdxMsg (npUnique y.data))) := by
      unfold assert_valid_class_labels
      rw [if_neg (by omega), if_neg (by simp), if_neg (by omega), if_pos h3]
    exact ⟨he, by rw [he]; rfl⟩
  · intro y h1 h2
    unfold assert_valid_class_labels
    rw [if_neg (by omega), if_neg (by simp), if_pos h2]

/-- Claim C5, witness for the amended statement: labels `[2, 3]` fail with
the zero-indexed `TypeError`; labels `[7]` fail with the at-least-2-classes
`ValueError`. -/
theorem claim_C5_amended_witness :
    (assert_valid_class_labels ⟨[2], [2, 3]⟩ false =
      .error (.typeError (mkZeroIdxMsg (npUnique [2, 3]))) ∧
     isValueErrorKind (assert_valid_class_labels ⟨[2], [2, 3]⟩ false) = false) ∧
    assert_valid_class_labels ⟨[1], [7]⟩ false = .error (.valueError msgAtLeast2) :=
  ⟨claim_C5_amended.1 ⟨[2], [2, 3]⟩ (by decide) (by decide) (by decide),
   claim_C5_amended.2 ⟨[1], [7]⟩ (by decide) (by decide)⟩


/-- Concrete `pred_probs = np.array([[0.9, 0.1], [0.2, 0.8]])`. -/
def predProbsC1 : NpArrayQ :=
  ⟨[2, 2], [⟨9, 10, by decide, by decide⟩, ⟨1, 10, by decide, by decide⟩,
    ⟨1, 5, by decide, by decide⟩, ⟨4, 5, by decide, by decide⟩]⟩

/-- Concrete `pred_probs = np.array([[0.5, 0.5], [0.5, 0.5]])`. -/
def predProbsHalf : NpArrayQ :=
  ⟨[2, 2], [⟨1, 2, by decide, by decide⟩, ⟨1, 2, by decide, by decide⟩,
    ⟨1, 2, by decide, by decide⟩, ⟨1, 2, by decide, by decide⟩]⟩

/-- Capabilities of a sparse-matrix-like `X` of 2 rows: `len(X)` raises,
`X.shape[0]` works, list-based bracket indexing works. -/
def sparseX : XObj :=
  ⟨none, some 2, false, false, false, false, false, true⟩

/-- Capabilities of a 2-row pandas container whose `.iloc[idx]` attempt
raises but whose plain `X[idx]` succeeds. -/
def pandasBadIloc : XObj :=
  ⟨some 2, some 2, true, false, false, false, false, true⟩

/-- Capabilities of a 2-row object supporting only generic bracket
indexing by a list of positions. -/
def bracketOnlyX : XObj :=
  ⟨some 2, none, false, false, false, false, false, true⟩

/-- Claim C1: `assert_valid_inputs(X=[[1,2],[3,4]], y=[0,1],
pred_probs=np.array([[0.9,0.1],[0.2,0.8]]))` returns normally, emitting
only the non-fatal advisory warning that `X` may be ignored, whether or
not the optional torch / tensorflow imports are available. -/
theorem claim_C1 (env : Env) :
    assert_valid_inputs env (some (listX 2)) (.accepted (.pylist (.flat [0, 1])))
      (some (.ndarray predProbsC1)) false false = .ok [msgWarn] := rfl

/-- Claim C1, witness: the same call with both optional imports available. -/
theorem claim_C1_witness :
    assert_valid_inputs ⟨true, true⟩ (some (listX 2)) (.accepted (.pylist (.flat [0, 1])))
      (some (.ndarray predProbsC1)) false false = .ok [msgWarn] :=
  claim_C1 ⟨true, true⟩

/-- Claim C6: any object whose `X[index_list]` bracket indexing succeeds
passes `assert_indexing_works` (in particular one with no `.iloc` and not
of a recognized streaming type); an object for which all four protocols
fail raises a `TypeError` whose message names both supported protocols
(`X[index_list]` and `X.iloc[index_list]`). -/
theorem claim_C6 :
    (∀ (env : Env) (X : XObj) (idx : Option (List Int)) (lX : Option Nat),
      X.bracketListOk = true → assert_indexing_works env (some X) idx lX = .ok ()) ∧
    (∀ (env : Env) (X : XObj) (idx : Option (List Int)) (lX : Option Nat),
      (X.isPandas && X.ilocOk) = false →
      (env.torchAvailable && (X.isTorchDataset && X.torchSubsetOk)) = false →
      (env.tfAvailable && X.isTfDataset) = false →
      X.bracketListOk = false →
      assert_indexing_works env (some X) idx lX = .error (.typeError msgIndexing)) ∧
    occursInB "X[index_list]".data msgIndexing.data = true ∧
    occursInB "X.iloc[index_list]".data msgIndexing.data = true := by
  refine ⟨?_, ?_, rfl, rfl⟩
  · intro env X idx lX h
    simp only [assert_indexing_works, xCaps, h]
    split <;> rfl
  · intro env X idx lX h1 h2 h3 h4
    simp only [assert_indexing_works, xCaps, h1, h2, h3, h4, Bool.false_or]
    rfl

/-- Claim C6, witness: a bracket-indexable object with no other protocol
passes; a plain-list-like object with no working protocol fails with the
`TypeError` naming both protocols. -/
theorem claim_C6_witness :
    assert_indexing_works ⟨false, false⟩ (some bracketOnlyX) none (some 2) = .ok () ∧
    assert_indexing_works ⟨true, true⟩ (some (listX 3)) none (some 3) =
      .error (.typeError msgIndexing) :=
  ⟨claim_C6.1 ⟨false, false⟩ bracketOnlyX none (some 2) rfl,
   claim_C6.2.1 ⟨true, true⟩ (listX 3) none (some 3) rfl rfl rfl rfl⟩

/-- Claim C7: `assert_valid_inputs(X=None, y=[0,1],
pred_probs=np.array([[0.5,0.5],[0.5,0.5]]))` returns normally with no
warning; and whenever `pred_probs` is supplied, the result depends on `X`
only through whether `X is None` (so the `None` check, the length
comparison and the indexing check on `X` are all skipped). -/
theorem claim_C7 :
    (∀ env : Env, assert_valid_inputs env none (.accepted (.pylist (.flat [0, 1])))
      (some (.ndarray predProbsHalf)) false false = .ok []) ∧
    (∀ (env : Env) (X₁ X₂ : Option XObj) (y : YInput) (pp : PredProbsLike) (ml amc : Bool),
      X₁.isSome = X₂.isSome →
      assert_valid_inputs env X₁ y (some pp) ml amc =
        assert_valid_inputs env X₂ y (some pp) ml amc) := by
  constructor
  · intro env
    rfl
  · intro env X₁ X₂ y pp ml amc h
    cases X₁ <;> cases X₂ <;> first | rfl | simp at h

/-- Claim C7, witness: with `pred_probs` supplied, an unindexable plain
list `X` of the wrong length and a sparse-like `X` with no `len` validate
identically. -/
theorem claim_C7_witness :
    assert_valid_inputs ⟨true, true⟩ (some (listX 5))
      (.accepted (.pylist (.flat [0, 1]))) (some (.ndarray predProbsHalf)) false false =
      assert_valid_inputs ⟨true, true⟩ (some sparseX)
        (.accepted (.pylist (.flat [0, 1]))) (some (.ndarray predProbsHalf)) false false :=
  claim_C7.2 ⟨true, true⟩ (some (listX 5)) (some sparseX)
    (.accepted (.pylist (.flat [0, 1]))) (.ndarray predProbsHalf) false false rfl

/-- Claim C8: with `pred_probs = None`, labels that pass the class checks,
and an `X` (not a tensorflow dataset) whose `len(X)` is `n ≠ len(labels)`,
`assert_valid_inputs` raises the length-mismatch `ValueError` reporting
both lengths — regardless of the indexing capabilities of `X`, showing the
mismatch check runs before the indexing check. -/
theorem claim_C8 (env : Env) (Xo : XObj) (ydata : List Int) (n : Nat)
    (htf : (env.tfAvailable && Xo.isTfDataset) = false)
    (hlen : Xo.pyLen = some n)
    (hne : n ≠ ydata.length)
    (hy : assert_valid_class_labels ⟨[ydata.length], ydata⟩ false = .ok ()) :
    assert_valid_inputs env (some Xo) (.accepted (.pylist (.flat ydata))) none false false =
      .error (.valueError (mkMismatchMsg n ydata.length)) := by
  simp only [assert_valid_inputs, labels_to_array, npAsarrayList, hy, xCaps,
    assert_nonempty_input, hlen, htf, Option.isSome_none, Bool.false_or]
  simp [hne]

/-- Claim C8, witness: `X=[[1,2]]` (length 1) with `y=[0,1]` (length 2)
raises the mismatch `ValueError` naming lengths 1 and 2, even though a
plain list would also fail the later indexing check. -/
theorem claim_C8_witness :
    assert_valid_inputs ⟨true, true⟩ (some (listX 1)) (.accepted (.pylist (.flat [0, 1])))
      none false false = .error (.valueError (mkMismatchMsg 1 2)) :=
  claim_C8 ⟨true, true⟩ (listX 1) [0, 1] 1 rfl rfl (by decide) rfl

/-- Claim C9, counterexample: exceptions outside the torch / tensorflow
probes are also swallowed.  A sparse-like `X` whose `len(X)` raises still
validates successfully (the failure falls back to `X.shape[0]`), and a
pandas container whose `.iloc` attempt raises still passes
`assert_indexing_works` via the generic bracket protocol — neither
exception propagates to the caller as the claim states. -/
theorem claim_C9_counterexample :
    assert_valid_inputs ⟨true, true⟩ (some sparseX) (.accepted (.pylist (.flat [0, 1])))
      none false false = .ok [] ∧
    assert_indexing_works ⟨true, true⟩ (some pandasBadIloc) none (some 2) = .ok () :=
  ⟨rfl, rfl⟩

/-- Claim C9, amended: besides the torch / tensorflow capability probes,
the size-query fallback in `assert_valid_inputs` swallows a failing
`len(X)` (behaving exactly as if `len(X)` had returned the `X.shape[0]`
value), and each indexing-protocol attempt in `assert_indexing_works`
swallows its own failure (a pandas container with a failing `.iloc`
behaves exactly like a non-pandas object); when every fallback fails a
fresh error is raised instead of the swallowed one. -/
theorem claim_C9_amended :
    (∀ (env : Env) (Xo : XObj) (n : Nat) (y : YInput) (pp : Option PredProbsLike)
      (ml amc : Bool), Xo.pyLen = none → Xo.shape0 = some n →
      assert_valid_inputs env (some Xo) y pp ml amc =
        assert_valid_inputs env (some { Xo with pyLen := some n }) y pp ml amc) ∧
    (∀ (env : Env) (Xo : XObj) (idx : Option (List Int)) (lX : Option Nat),
      Xo.isPandas = true → Xo.ilocOk = false →
      assert_indexing_works env (some Xo) idx lX =
        assert_indexing_works env (some { Xo with isPandas := false }) idx lX) := by
  constructor
  · intro env Xo n y pp ml amc h1 h2
    rcases Xo with ⟨pl, s0, pd, il, td, ts, tf, br⟩
    cases h1
    cases h2
    rfl
  · intro env Xo idx lX h1 h2
    rcases Xo with ⟨pl, s0, pd, il, td, ts, tf, br⟩
    cases h1
    cases h2
    rfl

/-- Claim C9, witness for the amended statement: the sparse-like `X` with
no `len` validates exactly like its copy whose `len` returns 2, and the
pandas container with failing `.iloc` indexes exactly like its non-pandas
copy. -/
theorem claim_C9_amended_witness :
    assert_valid_inputs ⟨false, false⟩ (some sparseX) (.accepted (.pylist (.flat [0, 1])))
      none false false =
      assert_valid_inputs ⟨false, false⟩ (some { sparseX with pyLen := some 2 })
        (.accepted (.pylist (.flat [0, 1]))) none false false ∧
    assert_indexing_works ⟨false, false⟩ (some pandasBadIloc) none (some 2) =
      assert_indexing_works ⟨false, false⟩ (some { pandasBadIloc with isPandas := false })
        none (some 2) :=
  ⟨claim_C9_amended.1 ⟨false, false⟩ sparseX 2 (.accepted (.pylist (.flat [0, 1])))
      none false false rfl rfl,
   claim_C9_amended.2 ⟨false, false⟩ pandasBadIloc none (some 2) rfl rfl⟩

/-- Claim C10: a plain Python list `X` with labels of matching length that
pass the class checks fails `assert_valid_inputs` with the indexing
`TypeError`: a list supports none of the four indexing protocols (indexing
a Python list by a list of positions raises a `TypeError`). -/
theorem claim_C10 (env : Env) (ydata : List Int)
    (hy : assert_valid_class_labels ⟨[ydata.length], ydata⟩ false = .ok ()) :
    assert_valid_inputs env (some (listX ydata.length)) (.accepted (.pylist (.flat ydata)))
      none false false = .error (.typeError msgIndexing) := by
  simp only [assert_valid_inputs, labels_to_array, npAsarrayList, hy, xCaps, listX,
    assert_nonempty_input, assert_indexing_works, Option.isSome_none, Bool.false_or,
    Bool.and_false, Bool.false_and, Bool.or_false]
  simp

/-- Claim C10, witness: `X = [[1,2],[3,4]]` as a plain list with
`y = [0,1]` raises the indexing `TypeError`. -/
theorem claim_C10_witness :
    assert_valid_inputs ⟨true, true⟩ (some (listX 2)) (.accepted (.pylist (.flat [0, 1])))
      none false false = .error (.typeError msgIndexing) :=
  claim_C10 ⟨true, true⟩ [0, 1] rfl

end CleanlabValidation
